import Mathlib

/-!
# RobotToeUltrasound — verification of the robot-control loop

Shallow embedding of the robot-control logic of the `RobotUltrasound` Slicer
module (`RobotUltrasound/RobotUltrasound.py`) and of the simplified script
variant (`drivemycobot.py`).  Joint angles, Cartesian coordinates, speeds and
time intervals are modelled as exact rationals (`ℚ`); lists model the Python
lists; handler methods that only produce side effects are modelled as
functions from their inputs to the commands (or ordered action traces) they
emit towards the host application and the robot-arm library.
-/

namespace RobotUltrasound

/-- `RobotUltrasoundWidget._defaultCenterAngles = [0, -28, -135, 76, 5, 45]`:
the factory center pose (six joint angles, in degrees). -/
def defaultCenterAngles : List ℚ := [0, -28, -135, 76, 5, 45]

/-- Target joint angles computed by `RobotUltrasoundWidget._moveByAngle`:
a copy of the stored center angles with `angles[0]` and `angles[5]` each
incremented by `angle` (`angles[0] = angles[0] + angle;
angles[5] = angles[5] + angle`). -/
def moveByAngleTarget (centerAngles : List ℚ) (angle : ℚ) : List ℚ :=
  let angles := centerAngles
  let angles := angles.set 0 (angles.getD 0 0 + angle)
  angles.set 5 (angles.getD 5 0 + angle)

/-- `onStartButton`: `_moveByAngle(-self.ui.angleRangeSlider.value / 2, ...)`.
In Python unary minus binds tighter than division, so the offset is
`(-angleRange) / 2`. -/
def onStartTarget (centerAngles : List ℚ) (angleRange : ℚ) : List ℚ :=
  moveByAngleTarget centerAngles ((-angleRange) / 2)

/-- `onCenterButton`: `_moveByAngle(0, ...)`. -/
def onCenterTarget (centerAngles : List ℚ) : List ℚ :=
  moveByAngleTarget centerAngles 0

/-- `onEndButton`: `_moveByAngle(self.ui.angleRangeSlider.value / 2, ...)`. -/
def onEndTarget (centerAngles : List ℚ) (angleRange : ℚ) : List ℚ :=
  moveByAngleTarget centerAngles (angleRange / 2)

/-- `onResetCenterToDefaultButton`: replaces the stored center angles by a
copy of `_defaultCenterAngles`, then calls `onCenterButton`.  Returns the new
stored center pose together with the joint-angle command sent to the arm. -/
def onResetCenterToDefault (_oldCenterAngles : List ℚ) : List ℚ × List ℚ :=
  let newCenter := defaultCenterAngles
  (newCenter, onCenterTarget newCenter)

/-- Helper: a length-6 list is exactly its six entries. -/
theorem list_length_six {α : Type} {l : List α} (h : l.length = 6) :
    ∃ a0 a1 a2 a3 a4 a5, l = [a0, a1, a2, a3, a4, a5] := by
  match l, h with
  | [a0, a1, a2, a3, a4, a5], _ => exact ⟨a0, a1, a2, a3, a4, a5, rfl⟩

/-- C1: for every stored 6-element center pose and every signed offset `a`,
the sweep command target is the center pose with axis 0 and axis 5 each
incremented by `a` and the middle four axes unchanged; `start` uses
`a = -angleRange/2`, `end` uses `a = +angleRange/2`; in particular with
center `[0,-28,-135,76,5,45]` and `angleRange = 30`, `start` commands
`[-15,-28,-135,76,5,30]` and `end` commands `[15,-28,-135,76,5,60]`. -/
theorem sweep_targets_offset_axes_0_and_5
    (c : List ℚ) (hc : c.length = 6) (a r : ℚ) :
    ((moveByAngleTarget c a).get? 0 = (c.get? 0).map (· + a) ∧
      (moveByAngleTarget c a).get? 5 = (c.get? 5).map (· + a) ∧
      (moveByAngleTarget c a).get? 1 = c.get? 1 ∧
      (moveByAngleTarget c a).get? 2 = c.get? 2 ∧
      (moveByAngleTarget c a).get? 3 = c.get? 3 ∧
      (moveByAngleTarget c a).get? 4 = c.get? 4) ∧
    onStartTarget c r = moveByAngleTarget c ((-r) / 2) ∧
    onEndTarget c r = moveByAngleTarget c (r / 2) ∧
    onStartTarget defaultCenterAngles 30 = [-15, -28, -135, 76, 5, 30] ∧
    onEndTarget defaultCenterAngles 30 = [15, -28, -135, 76, 5, 60] := by
  obtain ⟨a0, a1, a2, a3, a4, a5, rfl⟩ := list_length_six hc
  refine ⟨⟨?_, ?_, ?_, ?_, ?_, ?_⟩, rfl, rfl, ?_, ?_⟩ <;>
    norm_num [moveByAngleTarget, onStartTarget, onEndTarget, defaultCenterAngles]

/-- Witness for `sweep_targets_offset_axes_0_and_5` at the factory center
pose with offset 7 and range 30. -/
theorem sweep_targets_offset_axes_0_and_5_witness :
    (defaultCenterAngles.length = 6) ∧
    ((moveByAngleTarget defaultCenterAngles 7).get? 0 =
        ((defaultCenterAngles.get? 0).map (· + 7)) ∧
      (moveByAngleTarget defaultCenterAngles 7).get? 5 =
        ((defaultCenterAngles.get? 5).map (· + 7)) ∧
      (moveByAngleTarget defaultCenterAngles 7).get? 1 = defaultCenterAngles.get? 1 ∧
      (moveByAngleTarget defaultCenterAngles 7).get? 2 = defaultCenterAngles.get? 2 ∧
      (moveByAngleTarget defaultCenterAngles 7).get? 3 = defaultCenterAngles.get? 3 ∧
      (moveByAngleTarget defaultCenterAngles 7).get? 4 = defaultCenterAngles.get? 4) ∧
    onStartTarget defaultCenterAngles 30 = moveByAngleTarget defaultCenterAngles ((-30) / 2) ∧
    onEndTarget defaultCenterAngles 30 = moveByAngleTarget defaultCenterAngles (30 / 2) ∧
    onStartTarget defaultCenterAngles 30 = [-15, -28, -135, 76, 5, 30] ∧
    onEndTarget defaultCenterAngles 30 = [15, -28, -135, 76, 5, 60] := by
  have h := sweep_targets_offset_axes_0_and_5 defaultCenterAngles (by rfl) 7 30
  exact ⟨by rfl, h.1, h.2.1, h.2.2.1, h.2.2.2.1, h.2.2.2.2⟩

/-- C6: for every previously stored center pose, `onResetCenterToDefaultButton`
restores the factory center pose and immediately issues `center()`, so the
joint-angle command sent to the arm is exactly the factory 6-tuple. -/
theorem resetCenterToDefault_commands_factory_pose (oldCenter : List ℚ) :
    onResetCenterToDefault oldCenter = (defaultCenterAngles, defaultCenterAngles) := by
  norm_num [onResetCenterToDefault, onCenterTarget, moveByAngleTarget, defaultCenterAngles]

/-! ## Reconstruction-session cadence parameters

`onResetVolumeReconstructionButton`:
`volumeReconstructionNode.SetLiveUpdateIntervalSeconds(1 if liveUpdates else 1000)`
and `spacing = 1.0 if liveUpdates else 0.5`. -/

/-- Live-update interval (seconds) configured on the reconstruction node:
`1 if liveUpdates else 1000`. -/
def liveUpdateIntervalSeconds (liveUpdates : Bool) : ℚ :=
  if liveUpdates then 1 else 1000

/-- Output volume spacing configured on the reconstruction node:
`spacing = 1.0 if liveUpdates else 0.5`. -/
def outputSpacing (liveUpdates : Bool) : ℚ :=
  if liveUpdates then 1 else 1/2

/-- C2 counterexample: the code sets the output spacing to 1.0 when
`liveUpdates` is true and to 0.5 when it is false, so the spacing is NOT
finer (smaller) in the live case — it is coarser. -/
theorem outputSpacing_not_finer_when_live :
    outputSpacing true = 1 ∧ outputSpacing false = 1/2 ∧
    ¬ outputSpacing true < outputSpacing false := by
  refine ⟨rfl, rfl, ?_⟩
  norm_num [outputSpacing]

/-- C2 amended: when the reconstruction session is configured, the output
volume spacing is coarser (1.0) when `liveUpdates` is true and finer (0.5)
when it is false, while the live-update interval is near-continuous
(1 second) when `liveUpdates` is true and effectively paused (1000 seconds)
when it is false. -/
theorem reconstruction_cadence_per_liveUpdates :
    outputSpacing true = 1 ∧ outputSpacing false = 1/2 ∧
    outputSpacing false < outputSpacing true ∧
    liveUpdateIntervalSeconds true = 1 ∧ liveUpdateIntervalSeconds false = 1000 ∧
    liveUpdateIntervalSeconds true < liveUpdateIntervalSeconds false := by
  refine ⟨rfl, rfl, ?_, rfl, rfl, ?_⟩ <;>
    norm_num [outputSpacing, liveUpdateIntervalSeconds]

/-! ## Configuration bounds (C7)

The parameter node declares
`speed: Annotated[float, WithinRange(1, 50)] = 5` and
`angleRange: Annotated[float, WithinRange(0, 90)] = 30`.  The `WithinRange`
validator itself lives in the host application's `slicer.parameterNodeWrapper`
package, which is not part of this repository. -/

/-- The sweep configuration held by `RobotUltrasoundParameterNode`
(the two bounded numeric fields relevant to the sweep). -/
structure SweepConfig where
  speed : ℚ
  angleRange : ℚ
deriving DecidableEq

/-- The parameter node's declared defaults: `speed = 5`, `angleRange = 30`. -/
def defaultSweepConfig : SweepConfig := ⟨5, 30⟩

/-- Modelled from the spec: the `WithinRange(1, 50)` validator of the host
`slicer.parameterNodeWrapper` package (not in this repository) rejects a
write of `speed` outside `[1, 50]`, leaving the stored value unchanged;
in-range writes are stored.  Returns the resulting configuration and whether
the write was accepted. -/
def trySetSpeed (cfg : SweepConfig) (v : ℚ) : SweepConfig × Bool :=
  if 1 ≤ v ∧ v ≤ 50 then ({ cfg with speed := v }, true) else (cfg, false)

/-- Modelled from the spec: the `WithinRange(0, 90)` validator of the host
`slicer.parameterNodeWrapper` package (not in this repository) rejects a
write of `angleRange` outside `[0, 90]`, leaving the stored value unchanged;
in-range writes are stored. -/
def trySetAngleRange (cfg : SweepConfig) (v : ℚ) : SweepConfig × Bool :=
  if 0 ≤ v ∧ v ≤ 90 then ({ cfg with angleRange := v }, true) else (cfg, false)

/-- C7: a speed value outside `[1,50]` or an angleRange value outside
`[0,90]` is rejected at the configuration boundary (not clamped) and the
stored configuration is unchanged. -/
theorem out_of_range_config_rejected_unchanged (cfg : SweepConfig) (v : ℚ) :
    ((v < 1 ∨ 50 < v) → trySetSpeed cfg v = (cfg, false)) ∧
    ((v < 0 ∨ 90 < v) → trySetAngleRange cfg v = (cfg, false)) := by
  refine ⟨fun h => ?_, fun h => ?_⟩
  · unfold trySetSpeed
    rw [if_neg]
    rintro ⟨h1, h2⟩
    rcases h with h | h <;> linarith
  · unfold trySetAngleRange
    rw [if_neg]
    rintro ⟨h1, h2⟩
    rcases h with h | h <;> linarith

/-- Witness for `out_of_range_config_rejected_unchanged`: value 100 is
rejected both as a speed and as an angle range, leaving the defaults. -/
theorem out_of_range_config_rejected_unchanged_witness :
    trySetSpeed defaultSweepConfig 100 = (defaultSweepConfig, false) ∧
    trySetAngleRange defaultSweepConfig 100 = (defaultSweepConfig, false) := by
  have h := out_of_range_config_rejected_unchanged defaultSweepConfig 100
  exact ⟨h.1 (Or.inr (by norm_num)), h.2 (Or.inr (by norm_num))⟩

/-! ## Fly / land (C9)

`onFlyButton` / `onLandButton`:
`angles = slicer.mc.get_angles(); coords = slicer.mc.angles_to_coords(angles);
coords[2] = coords[2] ± 5; slicer.mc.send_coords(coords, 10, 0)`. -/

/-- The robot-arm library surface used by the fly/land handlers:
`angles_to_coords`, the opaque forward-kinematics conversion from the six
joint angles to Cartesian coordinates `[x, y, z, rx, ry, rz]`. -/
structure ArmKinematics where
  anglesToCoords : List ℚ → List ℚ

/-- `onFlyButton`: reads the current joint angles, converts them with
`angles_to_coords`, adds 5 to `coords[2]` (the z-coordinate) and returns the
Cartesian command sent via `send_coords(coords, 10, 0)`.  The stored center
pose `centerAngles` is in scope on `self` but unused by this handler. -/
def onFlyCommand (_centerAngles : List ℚ) (mc : ArmKinematics)
    (currentAngles : List ℚ) : List ℚ :=
  let angles := currentAngles
  let coords := mc.anglesToCoords angles
  coords.set 2 (coords.getD 2 0 + 5)

/-- `onLandButton`: same as `onFlyButton` but subtracts 5 from `coords[2]`. -/
def onLandCommand (_centerAngles : List ℚ) (mc : ArmKinematics)
    (currentAngles : List ℚ) : List ℚ :=
  let angles := currentAngles
  let coords := mc.anglesToCoords angles
  coords.set 2 (coords.getD 2 0 - 5)

/-- C9: fly and land compute their target from the arm's current live joint
angles converted to Cartesian coordinates — independent of the stored center
pose — changing only the z-coordinate (index 2), by +5 for fly and -5 for
land, with every other component unchanged. -/
theorem fly_land_nudge_current_z_only
    (center center' : List ℚ) (mc : ArmKinematics) (cur : List ℚ)
    (hlen : 2 < (mc.anglesToCoords cur).length) :
    (onFlyCommand center mc cur).get? 2 =
      some ((mc.anglesToCoords cur).getD 2 0 + 5) ∧
    (onLandCommand center mc cur).get? 2 =
      some ((mc.anglesToCoords cur).getD 2 0 - 5) ∧
    (∀ i, i ≠ 2 → (onFlyCommand center mc cur).get? i =
      (mc.anglesToCoords cur).get? i) ∧
    (∀ i, i ≠ 2 → (onLandCommand center mc cur).get? i =
      (mc.anglesToCoords cur).get? i) ∧
    onFlyCommand center mc cur = onFlyCommand center' mc cur ∧
    onLandCommand center mc cur = onLandCommand center' mc cur := by
  refine ⟨?_, ?_, fun i hi => ?_, fun i hi => ?_, rfl, rfl⟩
  · simp [onFlyCommand, List.get?_eq_getElem?, List.getElem?_set_self, hlen]
  · simp [onLandCommand, List.get?_eq_getElem?, List.getElem?_set_self, hlen]
  · simp [onFlyCommand, List.get?_eq_getElem?, List.getElem?_set_ne (Ne.symm hi)]
  · simp [onLandCommand, List.get?_eq_getElem?, List.getElem?_set_ne (Ne.symm hi)]

/-- Witness for `fly_land_nudge_current_z_only` with the identity-style
kinematics sending every angle list to `[1, 2, 3, 4, 5, 6]`. -/
theorem fly_land_nudge_current_z_only_witness :
    (2 < ((ArmKinematics.mk fun _ => [1, 2, 3, 4, 5, 6]).anglesToCoords
        defaultCenterAngles).length) ∧
    (onFlyCommand defaultCenterAngles
        (ArmKinematics.mk fun _ => [1, 2, 3, 4, 5, 6]) defaultCenterAngles).get? 2 =
      some ((((ArmKinematics.mk fun _ => [1, 2, 3, 4, 5, 6]).anglesToCoords
        defaultCenterAngles).getD 2 0) + 5) := by
  refine ⟨by norm_num, ?_⟩
  exact (fly_land_nudge_current_z_only defaultCenterAngles []
    (ArmKinematics.mk fun _ => [1, 2, 3, 4, 5, 6]) defaultCenterAngles
    (by norm_num)).1

/-! ## Published transform matrix (C10)

`updateProbeHolderToRobotBaseTransform` (and the script variant
`updateProbeToRobotBaseTransform`): `matrix = vtk.vtkMatrix4x4()` — a
`vtkMatrix4x4` is initialized to the identity — followed by
`matrix.SetElement(0, 3, position[0]); matrix.SetElement(1, 3, position[1]);
matrix.SetElement(2, 3, position[2])`. -/

/-- The 4x4 identity matrix, the initial value of a freshly constructed
`vtkMatrix4x4`. -/
def identity4 : Fin 4 → Fin 4 → ℚ := fun i j => if i = j then 1 else 0

/-- `vtkMatrix4x4.SetElement(r, c, v)`. -/
def setElement (m : Fin 4 → Fin 4 → ℚ) (r c : Fin 4) (v : ℚ) :
    Fin 4 → Fin 4 → ℚ :=
  fun i j => if i = r ∧ j = c then v else m i j

/-- The matrix published as `ProbeHolderToRobotBase` (resp. `ProbeToRobotBase`
in the script variant): identity with the translation column `(0,3)`, `(1,3)`,
`(2,3)` set from the converted Cartesian position. -/
def probeHolderToRobotBaseMatrix (position : List ℚ) : Fin 4 → Fin 4 → ℚ :=
  let m := identity4
  let m := setElement m 0 3 (position.getD 0 0)
  let m := setElement m 1 3 (position.getD 1 0)
  setElement m 2 3 (position.getD 2 0)

/-- C10: the published transform encodes position only — in the 4x4 matrix,
entries `(0,3)`, `(1,3)`, `(2,3)` hold the converted position, every entry
outside column 3 is the identity entry (so the rotation block is the
identity), and entry `(3,3)` stays 1; the orientation of the arm's pose is
discarded. -/
theorem published_transform_is_translation_only (position : List ℚ) :
    (∀ i j : Fin 4, (j : ℕ) ≠ 3 →
      probeHolderToRobotBaseMatrix position i j = identity4 i j) ∧
    probeHolderToRobotBaseMatrix position 0 3 = position.getD 0 0 ∧
    probeHolderToRobotBaseMatrix position 1 3 = position.getD 1 0 ∧
    probeHolderToRobotBaseMatrix position 2 3 = position.getD 2 0 ∧
    probeHolderToRobotBaseMatrix position 3 3 = 1 := by
  refine ⟨fun i j hj => ?_, rfl, rfl, rfl, rfl⟩
  have h3 : j ≠ (3 : Fin 4) := fun h => hj (by subst h; rfl)
  simp only [probeHolderToRobotBaseMatrix, setElement]
  rw [if_neg fun hc => h3 hc.2, if_neg fun hc => h3 hc.2, if_neg fun hc => h3 hc.2]

/-- Witness for `published_transform_is_translation_only` at position
`[7, 8, 9]` and entry `(1, 1)`. -/
theorem published_transform_is_translation_only_witness :
    ((1 : Fin 4) : ℕ) ≠ 3 ∧
    probeHolderToRobotBaseMatrix [7, 8, 9] 1 1 = identity4 1 1 ∧
    probeHolderToRobotBaseMatrix [7, 8, 9] 2 3 = ([7, 8, 9] : List ℚ).getD 2 0 := by
  have h := published_transform_is_translation_only [7, 8, 9]
  exact ⟨by norm_num, h.1 1 1 (by norm_num), h.2.2.2.1⟩

/-! ## Pose publisher (C3, C4)

`updateProbeHolderToRobotBaseTransform` is a self-rescheduling callback:

```
if not hasattr(slicer, 'mc') or not slicer.mc or not slicer.mc.is_controller_connected():
    if slicer.updateProbeHolderToRobotBaseTransformActive:
        qt.QTimer.singleShot(1000, updateProbeHolderToRobotBaseTransform)
... (no return: falls through)
angles = slicer.mc.get_angles()
position = slicer.mc.angles_to_coords(angles)
... build matrix, publish ...
if slicer.updateProbeHolderToRobotBaseTransformActive:
    qt.QTimer.singleShot(0, self.updateProbeHolderToRobotBaseTransform)
```

Two facts of the source matter for the embedding:
* the backoff call names the callback by the bare identifier
  `updateProbeHolderToRobotBaseTransform`.  That name is bound neither
  locally, nor at module scope (the function exists only as a method of
  `RobotUltrasoundWidget`), nor in builtins, so evaluating the argument of
  `singleShot` raises `NameError` and aborts the iteration before anything
  is scheduled;
* the disconnected branch has no `return`, so (were the name resolved)
  execution would continue into `slicer.mc.get_angles()`; when `slicer.mc`
  is `None` that attribute access raises `AttributeError`. -/

/-- Host-process state read by one pose-publisher iteration. -/
structure PubState where
  /-- `hasattr(slicer, 'mc') and slicer.mc` is truthy. -/
  mcPresent : Bool
  /-- `slicer.mc.is_controller_connected()` would return true. -/
  controllerConnected : Bool
  /-- `slicer.updateProbeHolderToRobotBaseTransformActive`. -/
  active : Bool
deriving DecidableEq

/-- How one pose-publisher iteration terminates. -/
inductive PubOutcome where
  /-- Ran to the end of the method body. -/
  | completed
  /-- `NameError` from the unbound bare name passed to the backoff
  `singleShot`. -/
  | nameError
  /-- `AttributeError` from `slicer.mc.get_angles()` with `slicer.mc = None`. -/
  | attrError
deriving DecidableEq

/-- Observable effects of one pose-publisher iteration. -/
structure PubIterResult where
  /-- A 1000 ms backoff `singleShot` was successfully scheduled. -/
  backoffScheduled : Bool
  /-- `slicer.mc.get_angles()` was invoked. -/
  readAttempted : Bool
  /-- A `ProbeHolderToRobotBase` matrix was published. -/
  emitted : Bool
  /-- A 0 ms `singleShot` re-invocation was scheduled. -/
  rescheduledImmediate : Bool
  /-- Termination mode of the iteration. -/
  outcome : PubOutcome
deriving DecidableEq

/-- One iteration of `updateProbeHolderToRobotBaseTransform`, statement by
statement.  The guard condition short-circuits, so `is_controller_connected`
is consulted only when `slicer.mc` is present. -/
def pubIteration (s : PubState) : PubIterResult :=
  let disconnected := !s.mcPresent || !s.controllerConnected
  if disconnected && s.active then
    -- `qt.QTimer.singleShot(1000, updateProbeHolderToRobotBaseTransform)`:
    -- the bare callback name is unbound, so NameError aborts the iteration
    -- before the timer is created.
    ⟨false, false, false, false, PubOutcome.nameError⟩
  else if !s.mcPresent then
    -- falls through the guard (inactive, so no backoff attempt) and reaches
    -- `slicer.mc.get_angles()` with `slicer.mc = None`: AttributeError.
    ⟨false, true, false, false, PubOutcome.attrError⟩
  else
    -- reads, converts, publishes the matrix, then reschedules immediately
    -- if and only if the active flag is still set.
    ⟨false, true, true, s.active, PubOutcome.completed⟩

/-- Number of matrix emissions over a chain of iterations started by one
in-flight iteration: the iteration's own emission, plus the emissions of the
chain it schedules (none when it schedules nothing).  `fuel` bounds the
number of iterations.  The process-state flags are not changed by the
iterations themselves. -/
def pubEmissions (s : PubState) : Nat → Nat
  | 0 => 0
  | fuel + 1 =>
    let r := pubIteration s
    (if r.emitted then 1 else 0) +
      (if r.backoffScheduled || r.rescheduledImmediate then pubEmissions s fuel else 0)

/-- C3 (failing input): with the arm connection absent (`slicer.mc = None`,
hence not Connected) and the publisher active, the iteration raises
`NameError` on the unbound backoff callback name: no 1000 ms backoff is
scheduled — contrary to the claim — and the claimed absence of a
joint-angle read holds only because the iteration crashes first (the guard
branch lacks a `return`, so with the name resolved the read at line 312
would be reached). -/
theorem disconnected_active_iteration_crashes_without_backoff :
    pubIteration ⟨false, false, true⟩ =
      ⟨false, false, false, false, PubOutcome.nameError⟩ ∧
    pubIteration ⟨true, false, true⟩ =
      ⟨false, false, false, false, PubOutcome.nameError⟩ := by
  exact ⟨rfl, rfl⟩

/-- C4: once the active flag is false, an iteration never schedules a backoff
nor an immediate re-invocation, so after the in-flight iteration completes no
further iterations run: the whole chain emits at most the one in-flight
emission, for every fuel bound. -/
theorem inactive_publisher_never_reschedules
    (s : PubState) (h : s.active = false) :
    (pubIteration s).backoffScheduled = false ∧
    (pubIteration s).rescheduledImmediate = false ∧
    ∀ fuel, pubEmissions s fuel ≤ 1 := by
  have hiter : (pubIteration s).backoffScheduled = false ∧
      (pubIteration s).rescheduledImmediate = false := by
    rcases s with ⟨mp, cc, a⟩
    cases h
    cases mp <;> cases cc <;> exact ⟨rfl, rfl⟩
  refine ⟨hiter.1, hiter.2, fun fuel => ?_⟩
  cases fuel with
  | zero => simp [pubEmissions]
  | succ n =>
    simp only [pubEmissions, hiter.1, hiter.2, Bool.or_self, if_false]
    split <;> simp

/-- Witness for `inactive_publisher_never_reschedules`: a connected but
deactivated publisher does not reschedule, and emits at most once in a
3-iteration budget. -/
theorem inactive_publisher_never_reschedules_witness :
    (PubState.mk true true false).active = false ∧
    (pubIteration ⟨true, true, false⟩).backoffScheduled = false ∧
    (pubIteration ⟨true, true, false⟩).rescheduledImmediate = false ∧
    pubEmissions ⟨true, true, false⟩ 3 ≤ 1 := by
  have h := inactive_publisher_never_reschedules ⟨true, true, false⟩ rfl
  exact ⟨rfl, h.1, h.2.1, h.2.2 3⟩

/-! ## Reconstruction coordinator (C5, C8)

`onResetVolumeReconstructionButton`, modelled as the ordered trace of actions
it performs towards the host application and the robot arm.  The method runs
on the single cooperative execution context, so trace order is temporal
order; in particular `sync_send_angles` (the blocking move) finishes before
the next action of the trace starts. -/

/-- Environment consulted by `onResetVolumeReconstructionButton`. -/
structure ReconEnv where
  /-- Whether `GetFirstNodeByName("Image_Reference")` finds the inbound image
  on poll number `i` (0-based). -/
  imageAppears : Nat → Bool
  /-- `self._parameterNode.liveUpdates`. -/
  liveUpdates : Bool
  /-- `slicer.modules.volumereslicedriver.logic()` is available. -/
  resliceLogicPresent : Bool
  /-- `GetFirstNodeByName("ProbeHolderToRobotBase")` finds the transform
  published by the pose publisher. -/
  robotTransformPresent : Bool
  /-- `self._parameterNode.centerAngles`. -/
  centerAngles : List ℚ
  /-- `self.ui.angleRangeSlider.value` (GUI-bound to `angleRange`). -/
  angleRange : ℚ

/-- One externally visible action of `onResetVolumeReconstructionButton`. -/
inductive RAction where
  /-- Ensure the OpenIGTLink connector to `localhost:18944` is running. -/
  | startConnector
  /-- Poll number `i` for the `Image_Reference` node. -/
  | pollImage (i : Nat)
  /-- `time.sleep(0.1)`: wait `ms` milliseconds between polls. -/
  | sleepMs (ms : Nat)
  /-- `errorDisplay("Failed to receive ultrasound image")`. -/
  | reportImageUnavailable
  /-- Live branch: show the image in the Red slice view and fit it. -/
  | showLiveSliceDisplay
  /-- Non-live branch: clear the background volume and hide the slice. -/
  | hideSliceDisplay
  /-- Configure the volume reslice driver (mode 6, flip, 180 rotation). -/
  | configureResliceDriver
  /-- `logging.warning` that the reslice driver logic is missing. -/
  | warnResliceLogicMissing
  /-- Create/update the `ImageToProbeHolder` transform and chain
  image → probe holder → robot base. -/
  | setImageToProbeHolder
  /-- `errorDisplay("Robot position is not found. Connect to the robot first.")`. -/
  | reportRobotNotConnected
  /-- `SetLiveUpdateIntervalSeconds` on the reconstruction node. -/
  | setLiveUpdateInterval (seconds : ℚ)
  /-- `SetOutputSpacing` on the reconstruction node. -/
  | setOutputSpacing (spacing : ℚ)
  /-- `slicer.mc.sync_send_angles(target, speed)`: blocking joint move that
  returns only when the arm has arrived. -/
  | syncSendAngles (target : List ℚ) (speed : ℚ)
  /-- Position the `VolumeReconstructionROI` around the arm's neutral
  Cartesian position. -/
  | placeROI
  /-- `ResetVolumeReconstruction` on the reconstruction logic. -/
  | resetReconstructionVolume
  /-- Create volume-rendering nodes and set their visibility. -/
  | setVolumeRenderingVisibility (visible : Bool)
  /-- `StartLiveVolumeReconstruction`: the live session begins. -/
  | startLiveReconstruction
deriving DecidableEq

/-- The polling loop `for i in range(fuel): ... if usImageNode: break;
processEvents; time.sleep(0.1)`, started at poll index `i`.  Returns the
ordered poll/sleep actions and whether the image node was found. -/
def pollActions (appears : Nat → Bool) : Nat → Nat → List RAction × Bool
  | _, 0 => ([], false)
  | i, fuel + 1 =>
    if appears i then ([RAction.pollImage i], true)
    else
      let rest := pollActions appears (i + 1) fuel
      (RAction.pollImage i :: RAction.sleepMs 100 :: rest.1, rest.2)

/-- The ordered action trace of `onResetVolumeReconstructionButton`:
connector start; up to 30 polls with 100 ms sleeps; on timeout an error
report and an early return; otherwise slice-display and reslice-driver
configuration, the image→probe-holder transform chain, an early return if
the robot-base transform is missing, then reconstruction-node cadence
configuration, the blocking sweep-start move at speed 15, ROI placement,
reconstruction reset, volume-rendering visibility, and the live session
start. -/
def onResetVolumeReconstruction (env : ReconEnv) : List RAction :=
  let polls := pollActions env.imageAppears 0 30
  RAction.startConnector ::
    polls.1 ++
    (if !polls.2 then [RAction.reportImageUnavailable]
     else
       (if env.liveUpdates then [RAction.showLiveSliceDisplay]
        else [RAction.hideSliceDisplay]) ++
       (if env.resliceLogicPresent then [RAction.configureResliceDriver]
        else [RAction.warnResliceLogicMissing]) ++
       [RAction.setImageToProbeHolder] ++
       (if !env.robotTransformPresent then [RAction.reportRobotNotConnected]
        else
          [RAction.setLiveUpdateInterval (liveUpdateIntervalSeconds env.liveUpdates),
            RAction.setOutputSpacing (outputSpacing env.liveUpdates),
            RAction.syncSendAngles (onStartTarget env.centerAngles env.angleRange) 15,
            RAction.placeROI,
            RAction.resetReconstructionVolume,
            RAction.setVolumeRenderingVisibility env.liveUpdates,
            RAction.startLiveReconstruction]))

/-- When no poll finds the image, the loop performs exactly one poll and one
100 ms sleep per fuel unit and reports failure. -/
theorem pollActions_eq_of_never_appears (appears : Nat → Bool) :
    ∀ fuel i, (∀ j, i ≤ j → j < i + fuel → appears j = false) →
      pollActions appears i fuel =
        ((List.range' i fuel).flatMap fun j =>
          [RAction.pollImage j, RAction.sleepMs 100], false) := by
  intro fuel
  induction fuel with
  | zero => intro i _; rfl
  | succ n ih =>
    intro i h
    have hi : appears i = false := h i le_rfl (by omega)
    have ihx := ih (i + 1) (fun j h1 h2 => h j (by omega) (by omega))
    simp only [pollActions, hi, Bool.false_eq_true, if_false, ihx,
      List.range'_succ, List.flatMap_cons]
    rfl

/-- C5: if the inbound image never appears, `onResetVolumeReconstructionButton`
polls exactly 30 times with a 100 ms sleep after each failed poll, reports
the image-stream failure, and returns without configuring the transform
chain or the ROI and without starting (or resetting) the reconstruction
session. -/
theorem image_timeout_reports_and_stops (env : ReconEnv)
    (h : ∀ j, j < 30 → env.imageAppears j = false) :
    onResetVolumeReconstruction env =
      RAction.startConnector ::
        (((List.range' 0 30).flatMap fun j =>
            [RAction.pollImage j, RAction.sleepMs 100]) ++
          [RAction.reportImageUnavailable]) ∧
    RAction.startLiveReconstruction ∉ onResetVolumeReconstruction env ∧
    RAction.resetReconstructionVolume ∉ onResetVolumeReconstruction env ∧
    RAction.setImageToProbeHolder ∉ onResetVolumeReconstruction env ∧
    RAction.placeROI ∉ onResetVolumeReconstruction env ∧
    (∀ t s, RAction.syncSendAngles t s ∉ onResetVolumeReconstruction env) := by
  have hpoll := pollActions_eq_of_never_appears env.imageAppears 30 0
    (fun j _ h2 => h j (by omega))
  have heq : onResetVolumeReconstruction env =
      RAction.startConnector ::
        (((List.range' 0 30).flatMap fun j =>
            [RAction.pollImage j, RAction.sleepMs 100]) ++
          [RAction.reportImageUnavailable]) := by
    unfold onResetVolumeReconstruction
    rw [hpoll]
    rfl
  refine ⟨heq, ?_, ?_, ?_, ?_, fun t s => ?_⟩ <;> rw [heq]
  · decide
  · decide
  · decide
  · decide
  · simp

/-- Witness for `image_timeout_reports_and_stops`: an environment whose image
stream never appears. -/
theorem image_timeout_reports_and_stops_witness :
    (∀ j, j < 30 →
      (ReconEnv.mk (fun _ => false) true true true defaultCenterAngles 30).imageAppears
        j = false) ∧
    onResetVolumeReconstruction
        (ReconEnv.mk (fun _ => false) true true true defaultCenterAngles 30) =
      RAction.startConnector ::
        (((List.range' 0 30).flatMap fun j =>
            [RAction.pollImage j, RAction.sleepMs 100]) ++
          [RAction.reportImageUnavailable]) := by
  exact ⟨fun j _ => rfl,
    (image_timeout_reports_and_stops _ (fun j _ => rfl)).1⟩

/-- C8: in every successful run (image found, robot-base transform present),
the trace contains the blocking sweep-start command — `sync_send_angles` of
the sweep-start target at speed 15, which returns only after the arm has
arrived — strictly before `StartLiveVolumeReconstruction`; order in the
single-threaded trace is temporal order. -/
theorem blocking_sweep_start_precedes_reconstruction (env : ReconEnv)
    (hfound : (pollActions env.imageAppears 0 30).2 = true)
    (hrobot : env.robotTransformPresent = true) :
    List.Sublist
      [RAction.syncSendAngles (onStartTarget env.centerAngles env.angleRange) 15,
        RAction.startLiveReconstruction]
      (onResetVolumeReconstruction env) := by
  unfold onResetVolumeReconstruction
  simp only [hfound, hrobot, Bool.not_true, Bool.false_eq_true, if_false]
  refine List.Sublist.cons _ ?_
  refine List.Sublist.trans ?_ (List.sublist_append_right _ _)
  refine List.Sublist.trans ?_ (List.sublist_append_right _ _)
  refine List.Sublist.cons _ ?_
  refine List.Sublist.cons _ ?_
  refine List.Sublist.cons₂ _ ?_
  refine List.Sublist.cons _ ?_
  refine List.Sublist.cons _ ?_
  refine List.Sublist.cons _ ?_
  exact List.Sublist.cons₂ _ (List.nil_sublist _)

/-- Witness for `blocking_sweep_start_precedes_reconstruction`: image found
on the first poll, robot transform present. -/
theorem blocking_sweep_start_precedes_reconstruction_witness :
    (pollActions
        (ReconEnv.mk (fun _ => true) true true true defaultCenterAngles 30).imageAppears
        0 30).2 = true ∧
    (ReconEnv.mk (fun _ => true) true true true defaultCenterAngles 30).robotTransformPresent
        = true ∧
    List.Sublist
      [RAction.syncSendAngles (onStartTarget defaultCenterAngles 30) 15,
        RAction.startLiveReconstruction]
      (onResetVolumeReconstruction
        (ReconEnv.mk (fun _ => true) true true true defaultCenterAngles 30)) := by
  exact ⟨rfl, rfl,
    blocking_sweep_start_precedes_reconstruction
      (ReconEnv.mk (fun _ => true) true true true defaultCenterAngles 30) rfl rfl⟩

end RobotUltrasound
